import Mathlib

/-
Verification of the Aldebaran assembler macro engine (src/assembler/macros.py).

The file shallowly embeds the macro engine: the directive classes DAT, DATN,
CONST, PARAM, PARAMB, VAR, VARB, the shared validation pipeline in
Macro.run, and the error helpers.  Python exceptions are modelled by an
explicit error type threaded through Except; the assembler object and the
tokenizer, which are external collaborators of this core, are modelled from
the specification where the macro code calls into them.  Machine bytes are
natural numbers; the mutable assembler state (constant table and current
scope) is passed and returned explicitly.
-/

/-- Kind of an operand token, from the token model of the spec (the tokenizer
itself is an external collaborator): byte literal, word literal, string
literal, or variable reference. -/
inductive TokenType where
  | BYTE_LITERAL
  | WORD_LITERAL
  | STRING_LITERAL
  | VARIABLE
deriving DecidableEq

/-- Payload of a token: byte and word literals (and repeat counts) carry a
Python integer, string literals and variable references carry a string. -/
inductive TokenValue where
  | int (n : Int)
  | str (s : String)
deriving DecidableEq

/-- A typed operand token: kind, value and source position, per the token
model of the spec. -/
structure Token where
  type : TokenType
  value : TokenValue
  pos : Nat
deriving DecidableEq

/-- Error classes passed to the error helpers (utils.errors.AldebaranError and
the classes declared at the bottom of macros.py). -/
inductive ErrClass where
  | AldebaranError
  | MacroError
  | VariableError
  | ScopeError
deriving DecidableEq

/-- Exceptions that the embedded code can raise.  The first four are plain
Python exceptions (TypeError, NameError, IndexError, AttributeError); the
last is the typed assembler error raised by the external substitute_variable
when a variable name has no entry in the constant table. -/
inductive PyExc where
  | typeError (msg : String)
  | nameError (msg : String)
  | indexError (msg : String)
  | attributeError (msg : String)
  | undefinedVariableError (msg : String)
deriving DecidableEq

/-- One element of the opcode list produced by a handler: a byte, or a
character (a Python list extended with a string receives its characters). -/
inductive Emitted where
  | byte (n : Nat)
  | char (c : Char)
deriving DecidableEq

/-- A scope, modelled from the spec: ordered parameter declarations
(name, width) and ordered local declarations (name, width, optional default). -/
structure Scope where
  parameters : List (TokenValue × Nat)
  locals : List (TokenValue × Nat × Option TokenValue)
deriving DecidableEq

/-- The assembler state visible to the macro engine: the constant table
(an insertion-ordered dictionary from names to value tokens) and the
externally owned current scope. -/
structure AsmState where
  consts : List (TokenValue × Token)
  current_scope : Option Scope
deriving DecidableEq

/-- Lookup in a Python dictionary modelled as an insertion-ordered
association list. -/
def dictGet : List (TokenValue × Token) → TokenValue → Option Token
  | [], _ => none
  | (k, v) :: rest, key => if k = key then some v else dictGet rest key

/-- Assignment d[key] = v in a Python dictionary: replace in place when the
key exists, append otherwise. -/
def dictSet : List (TokenValue × Token) → TokenValue → Token → List (TokenValue × Token)
  | [], key, v => [(key, v)]
  | (k, w) :: rest, key, v =>
      if k = key then (key, v) :: rest else (k, w) :: dictSet rest key v

def pyArgCountMsg : String :=
  "raise error takes from 3 to 4 positional arguments but 6 were given"

def pyParamUndefMsg : String := "name param is not defined"

def pyMessageUndefMsg : String := "name message is not defined"

def pyNoneSubscriptMsg : String := "NoneType object is not subscriptable"

def pyIndexMsg : String := "list index out of range"

def pyIntNotIterableMsg : String := "int object is not iterable"

def pySeqMulMsg : String := "cannot multiply sequence by non-int"

def pyEncodeAttrMsg : String := "int object has no attribute encode"

def pyWordArgMsg : String := "word to binary expects a number"

def pyUndefinedVarMsg : String := "undefined variable"

/-- Macro._raise_error (macros.py lines 72 to 73).  Its body calls the same
three-parameter method with five arguments, so the Python call machinery
raises TypeError at the call site: no error object of the requested class is
ever constructed, whatever the arguments were. -/
def raise_error_fn {α : Type} (position : Option Nat) (message : String)
    (cls : ErrClass) : Except PyExc α :=
  .error (.typeError pyArgCountMsg)

/-- Macro._raise_macro_error (macros.py lines 69 to 70): delegates to the
broken Macro._raise_error with MacroError as the class. -/
def raise_macro_error_fn {α : Type} (position : Option Nat) (message : String) :
    Except PyExc α :=
  raise_error_fn position message ErrClass.MacroError

/-- Module-level _raise_error (macros.py lines 253 to 258): its f-string
reads the undefined name message (the parameter is named error_message), so
evaluating the body raises NameError before any exception is constructed. -/
def module_raise_error {α : Type} (code : String) (line_number : Nat)
    (pos : Option Nat) (error_message : String) (cls : ErrClass) :
    Except PyExc α :=
  .error (.nameError pyMessageUndefMsg)

/-- Modelled from the spec: the external Scope capability
add_parameter(name, width) -> ok | AlreadyDefined; it appends the
declaration to the ordered parameter list, refusing a name already declared
in the scope. -/
def Scope.add_parameter (sc : Scope) (name : TokenValue) (width : Nat) :
    Except Unit Scope :=
  if sc.parameters.any (fun q => decide (q.1 = name)) ||
      sc.locals.any (fun q => decide (q.1 = name)) then
    .error ()
  else
    .ok { sc with parameters := sc.parameters ++ [(name, width)] }

/-- Modelled from the spec: the assembler helper is_variable_defined used by
PARAM.do; a name counts as defined when it is already a constant, or a
parameter or local of the current scope. -/
def AsmState.is_variable_defined (st : AsmState) (name : TokenValue) : Bool :=
  st.consts.any (fun q => decide (q.1 = name)) ||
    (match st.current_scope with
     | some sc =>
         sc.parameters.any (fun q => decide (q.1 = name)) ||
           sc.locals.any (fun q => decide (q.1 = name))
     | none => false)

/-- Modelled from the spec: the assembler method substitute_variable, an
external collaborator of this core.  A Variable token is resolved against
the constant table, an unresolved name is an UndefinedVariableError, and a
non-Variable token is returned unchanged. -/
def AsmState.substitute_variable (st : AsmState) (t : Token) : Except PyExc Token :=
  if t.type = TokenType.VARIABLE then
    match dictGet st.consts t.value with
    | some tok => .ok tok
    | none => .error (.undefinedVariableError pyUndefinedVarMsg)
  else
    .ok t

/-- Modelled from the spec: utils.word_to_binary is referenced but not shown
in the directive file; the spec fixes the word encoding as two bytes in
big-endian order. -/
def word_to_binary (n : Int) : List Emitted :=
  [.byte ((n.toNat / 256) % 256), .byte (n.toNat % 256)]

/-- The seven directive classes of macros.py. -/
inductive Directive where
  | DAT
  | DATN
  | CONST
  | PARAM
  | PARAMB
  | VAR
  | VARB
deriving DecidableEq

/-- The substitute_variables_in_params class attribute: the Python value is
None (falsy), the string all, or a list of 1-based positions. -/
inductive SubstPolicy where
  | pyNone
  | all
  | positions (ps : List Nat)
deriving DecidableEq

/-- param_count class attribute of each directive: an optional minimum and
an optional maximum; DAT declares (1, None). -/
def param_count : Directive → Option Nat × Option Nat
  | .DAT => (some 1, none)
  | .DATN => (some 2, some 2)
  | .CONST => (some 2, some 2)
  | .PARAM => (some 1, some 1)
  | .PARAMB => (some 1, some 1)
  | .VAR => (some 1, some 2)
  | .VARB => (some 1, some 2)

/-- substitute_variables_in_params class attribute of each directive. -/
def substitute_variables_in_params : Directive → SubstPolicy
  | .DAT => .all
  | .DATN => .all
  | .CONST => .positions [2]
  | _ => .pyNone

/-- param_types class attribute of each directive: the per-position lists of
allowed token kinds consulted by Macro.run.  DAT sets only param_type_list,
so for DAT the attribute read by run stays at the base-class value None. -/
def param_types : Directive → Option (List (List TokenType))
  | .DAT => none
  | .DATN => some [[.BYTE_LITERAL, .WORD_LITERAL],
                   [.BYTE_LITERAL, .WORD_LITERAL, .STRING_LITERAL]]
  | .CONST => some [[.VARIABLE],
                    [.BYTE_LITERAL, .WORD_LITERAL, .STRING_LITERAL]]
  | .PARAM => some [[.VARIABLE]]
  | .PARAMB => some [[.VARIABLE]]
  | .VAR => some [[.VARIABLE]]
  | .VARB => some [[.VARIABLE]]

/-- param_type_list class attribute: set only by DAT (macros.py line 85) and
never consulted by Macro.run, which reads param_types instead. -/
def param_type_list : Directive → Option (List TokenType)
  | .DAT => some [.BYTE_LITERAL, .WORD_LITERAL, .STRING_LITERAL]
  | _ => none

/-- length class attribute of the scope directives: width 2 for the word
directives PARAM and VAR, width 1 for the byte directives PARAMB and VARB. -/
def macro_length : Directive → Nat
  | .PARAM => 2
  | .VAR => 2
  | _ => 1

/-- The MACRO_SET dictionary mapping directive names to classes
(macros.py lines 242 to 250). -/
def MACRO_SET : List (String × Directive) :=
  [("DAT", .DAT), ("DATN", .DATN), ("CONST", .CONST), ("PARAM", .PARAM),
   ("PARAMB", .PARAMB), ("VAR", .VAR), ("VARB", .VARB)]

/-- The parameter-count test of Macro.run (line 38): the count passes only
when both bounds are present and the count lies between them; a None bound
makes the tested conjunction false, so the run raises. -/
def arity_ok : Option Nat × Option Nat → Nat → Bool
  | (some lo, some hi), n => decide (lo ≤ n) && decide (n ≤ hi)
  | _, _ => false

/-- param.value.encode applied in the string-literal branches: a string
value yields its UTF-8 bytes; an integer value has no encode attribute. -/
def pyEncodeUtf8 : TokenValue → Except PyExc (List Emitted)
  | .str s => .ok ((String.toUTF8 s).toList.map (fun b => .byte b.toNat))
  | .int _ => .error (.attributeError pyEncodeAttrMsg)

/-- opcode.extend(param.value) in the byte-literal branch of DAT.do: a
Python integer is not iterable, so extending with it raises TypeError; a
string extends the list with its characters. -/
def pyExtendWith : TokenValue → Except PyExc (List Emitted)
  | .int _ => .error (.typeError pyIntNotIterableMsg)
  | .str s => .ok (s.data.map .char)

/-- list(param.value) in the byte-literal branch of DATN.do: same Python
semantics as extending with the value. -/
def pyListOfValue : TokenValue → Except PyExc (List Emitted)
  | .int _ => .error (.typeError pyIntNotIterableMsg)
  | .str s => .ok (s.data.map .char)

/-- utils.word_to_binary(param.value) in the word branches: defined on
numbers; applying it to a string value is a TypeError. -/
def pyWordToBinaryValue : TokenValue → Except PyExc (List Emitted)
  | .int n => .ok (word_to_binary n)
  | .str _ => .error (.typeError pyWordArgMsg)

/-- DAT.do (macros.py lines 87 to 99): concatenate, in parameter order, the
encoding of each parameter; the else branch treats every non-string
non-byte kind as a word literal. -/
def DAT_do : List Token → Except PyExc (List Emitted)
  | [] => .ok []
  | p :: rest =>
    match (match p.type with
           | .STRING_LITERAL => pyEncodeUtf8 p.value
           | .BYTE_LITERAL => pyExtendWith p.value
           | _ => pyWordToBinaryValue p.value) with
    | .error e => .error e
    | .ok bs =>
      match DAT_do rest with
      | .error e => .error e
      | .ok more => .ok (bs ++ more)

/-- DATN.do (macros.py lines 116 to 128): encode params[1] as in DAT, then
multiply the resulting list by params[0].value; Python list multiplication
by a non-positive integer yields the empty list, and by a non-integer
raises TypeError. -/
def DATN_do (params : List Token) : Except PyExc (List Emitted) :=
  match params.get? 1 with
  | none => .error (.indexError pyIndexMsg)
  | some p1 =>
    match (match p1.type with
           | .STRING_LITERAL => pyEncodeUtf8 p1.value
           | .BYTE_LITERAL => pyListOfValue p1.value
           | _ => pyWordToBinaryValue p1.value) with
    | .error e => .error e
    | .ok bs =>
      match params.get? 0 with
      | none => .error (.indexError pyIndexMsg)
      | some p0 =>
        match p0.value with
        | .int n => .ok (List.flatten (List.replicate n.toNat bs))
        | .str _ => .error (.typeError pySeqMulMsg)

/-- CONST.do (macros.py lines 144 to 152): after a dead re-check of the name
kind (already enforced by validation; its raise would go through the broken
helper), register the constant by plain dictionary assignment — the existing
entry, if any, is silently overwritten — and return an empty opcode. -/
def CONST_do (params : List Token) (st : AsmState) :
    Except PyExc (List Emitted) × AsmState :=
  match params.get? 0 with
  | none => (.error (.indexError pyIndexMsg), st)
  | some const_name =>
    match params.get? 1 with
    | none => (.error (.indexError pyIndexMsg), st)
    | some const_value =>
      if const_name.type ≠ TokenType.VARIABLE then
        (raise_error_fn const_name.pos "Expected a variable" ErrClass.VariableError, st)
      else
        (.ok [], { st with consts := dictSet st.consts const_name.value const_value })

/-- PARAM.do (macros.py lines 168 to 179), shared by PARAMB through
inheritance with length 1.  With no current scope the handler reaches the
broken raise helper (after evaluating params[0].pos); otherwise it rejects an
already defined name, then registers the parameter in the scope, mapping any
registration failure through the broken raise helper; on success it returns
an empty opcode. -/
def PARAM_do (length : Nat) (params : List Token) (st : AsmState) :
    Except PyExc (List Emitted) × AsmState :=
  match st.current_scope with
  | none =>
    match params.get? 0 with
    | none => (.error (.indexError pyIndexMsg), st)
    | some p => (raise_macro_error_fn (some p.pos) "No scope defined for parameters.", st)
  | some sc =>
    match params.get? 0 with
    | none => (.error (.indexError pyIndexMsg), st)
    | some param_name =>
      if st.is_variable_defined param_name.value then
        (raise_error_fn (some param_name.pos) "Expected a variable for parameter"
          ErrClass.VariableError, st)
      else
        match sc.add_parameter param_name.value length with
        | .ok sc2 => (.ok [], { st with current_scope := some sc2 })
        | .error _ =>
          (raise_error_fn none "Error adding parameter to the Scope"
            ErrClass.ScopeError, st)

/-- VAR.do (macros.py lines 206 to 228), shared by VARB through inheritance
with length 1.  With no current scope it reaches the broken raise helper.
With a single parameter it skips the whole default-value block — so it never
registers the local — and returns an empty opcode.  With two parameters it
substitutes a Variable default through the constant table, type-checks the
default, then calls the external add_variable with two arguments against the
three-parameter signature the spec gives it; the resulting TypeError is
swallowed by the bare except, whose handler is the broken raise helper. -/
def VAR_do (length : Nat) (params : List Token) (st : AsmState) :
    Except PyExc (List Emitted) × AsmState :=
  match st.current_scope with
  | none =>
    match params.get? 0 with
    | none => (.error (.indexError pyIndexMsg), st)
    | some p => (raise_macro_error_fn (some p.pos) "No scope defined for variables.", st)
  | some _ =>
    match params.get? 0 with
    | none => (.error (.indexError pyIndexMsg), st)
    | some _name =>
      if params.length > 1 then
        match params.get? 1 with
        | none => (.error (.indexError pyIndexMsg), st)
        | some dv0 =>
          match (if dv0.type = TokenType.VARIABLE then st.substitute_variable dv0
                 else .ok dv0) with
          | .error e => (.error e, st)
          | .ok dv =>
            if dv.type ∉ [TokenType.WORD_LITERAL, TokenType.BYTE_LITERAL] then
              (raise_macro_error_fn (some dv.pos) "Invalid default value type", st)
            else
              (raise_error_fn none "Error adding parameter to the Scope"
                ErrClass.ScopeError, st)
      else
        (.ok [], st)

/-- The variable-substitution pass of Macro.run (lines 43 to 46).  The all
branch evaluates the undefined name param while building the arguments of
substitute_variable, raising NameError.  The truthy-list branch substitutes
exactly the Variable tokens whose 1-based position is listed. -/
def subst_at (st : AsmState) (ps : List Nat) : Nat → List Token → Except PyExc (List Token)
  | _, [] => .ok []
  | i, t :: rest =>
    match (if (i + 1) ∈ ps ∧ t.type = TokenType.VARIABLE then st.substitute_variable t
           else .ok t) with
    | .error e => .error e
    | .ok t2 =>
      match subst_at st ps (i + 1) rest with
      | .error e => .error e
      | .ok rest2 => .ok (t2 :: rest2)

/-- Dispatch on the substitute_variables_in_params attribute, following the
Python truthiness tests of Macro.run lines 43 and 45. -/
def apply_substitution (pol : SubstPolicy) (params : List Token) (st : AsmState) :
    Except PyExc (List Token) :=
  match pol with
  | .all => .error (.nameError pyParamUndefMsg)
  | .positions ps => if ps.isEmpty then .ok params else subst_at st ps 0 params
  | .pyNone => .ok params

/-- The subscript self.param_types[i] evaluated while building the arguments
of _validate_parameter: subscripting None raises TypeError, an out-of-range
index raises IndexError. -/
def py_param_types_at (pt : Option (List (List TokenType))) (i : Nat) :
    Except PyExc (List TokenType) :=
  match pt with
  | none => .error (.typeError pyNoneSubscriptMsg)
  | some l =>
    match l.get? i with
    | some tl => .ok tl
    | none => .error (.indexError pyIndexMsg)

/-- Macro._validate_parameter (lines 60 to 67).  The initial falsiness test
never fires on a token object; a kind outside the allowed list goes to the
broken raise helper. -/
def validate_parameter (p : Token) (tl : List TokenType) : Except PyExc Unit :=
  if p.type ∈ tl then .ok ()
  else raise_macro_error_fn (some p.pos) "Param expected type in list"

/-- The validation loop of Macro.run (lines 49 to 50). -/
def validate_params (pt : Option (List (List TokenType))) : Nat → List Token → Except PyExc Unit
  | _, [] => .ok ()
  | i, p :: rest =>
    match py_param_types_at pt i with
    | .error e => .error e
    | .ok tl =>
      match validate_parameter p tl with
      | .error e => .error e
      | .ok _ => validate_params pt (i + 1) rest

/-- Dispatch to the handler-specific do method of each directive class. -/
def macro_do (d : Directive) (params : List Token) (st : AsmState) :
    Except PyExc (List Emitted) × AsmState :=
  match d with
  | .DAT => (DAT_do params, st)
  | .DATN => (DATN_do params, st)
  | .CONST => CONST_do params st
  | .PARAM => PARAM_do (macro_length .PARAM) params st
  | .PARAMB => PARAM_do (macro_length .PARAMB) params st
  | .VAR => VAR_do (macro_length .VAR) params st
  | .VARB => VAR_do (macro_length .VARB) params st

/-- Macro.run (macros.py lines 32 to 52): the parameter-count check (whose
failure report goes through the broken raise helper, and which also fails
whenever a declared bound is None), then variable substitution, then
per-position kind validation, then the handler-specific do.  The final
assembler state is returned alongside the outcome. -/
def Macro_run (d : Directive) (params : List Token) (st : AsmState) :
    Except PyExc (List Emitted) × AsmState :=
  if arity_ok (param_count d) params.length then
    match apply_substitution (substitute_variables_in_params d) params st with
    | .error e => (.error e, st)
    | .ok params2 =>
      match validate_params (param_types d) 0 params2 with
      | .error e => (.error e, st)
      | .ok _ => macro_do d params2 st
  else
    (raise_macro_error_fn (params.head?.map Token.pos) "Unexpected param count", st)

/-- Looking up a key just stored by dictionary assignment yields the stored
value. -/
theorem dictGet_dictSet_self (d : List (TokenValue × Token)) (k : TokenValue) (v : Token) :
    dictGet (dictSet d k v) k = some v := by
  induction d with
  | nil => simp [dictSet, dictGet]
  | cons hd tl ih =>
    obtain ⟨k0, v0⟩ := hd
    by_cases h : k0 = k
    · simp [dictSet, dictGet, h]
    · simp [dictSet, dictGet, h, ih]

/-- C1: the claim says the valid invocation .DAT 0x41 0x42 "C" returns the
bytes 0x41 0x42 0x43.  In the code, Macro.run instead raises a Python
TypeError before DAT.do can run: the parameter-count check treats the None
maximum of DAT.param_count as a violation, and reporting that through the
broken Macro._raise_error helper raises TypeError.  No byte sequence is
produced and the assembler state is unchanged. -/
theorem C1_dat_scenario_raises_py_type_error :
    Macro_run .DAT [⟨.BYTE_LITERAL, .int 65, 0⟩, ⟨.BYTE_LITERAL, .int 66, 1⟩,
      ⟨.STRING_LITERAL, .str "C", 2⟩] ⟨[], none⟩ =
    (.error (.typeError pyArgCountMsg), ⟨[], none⟩) := rfl

/-- C2: the claim says .DATN 3 0x01 returns the byte 0x01 three times.  In
the code the invocation passes the parameter-count check and then raises a
Python NameError: the all-substitution branch of Macro.run evaluates the
undefined name param.  DATN.do is never reached and no byte sequence is
produced. -/
theorem C2_datn_scenario_raises_py_name_error :
    Macro_run .DATN [⟨.BYTE_LITERAL, .int 3, 0⟩, ⟨.BYTE_LITERAL, .int 1, 1⟩] ⟨[], none⟩ =
    (.error (.nameError pyParamUndefMsg), ⟨[], none⟩) := rfl

/-- C3 counterexample: with the table already holding X = 1, a second
.CONST X 2 does not fail with a VariableError and does not leave the table
holding X = 1; it succeeds with an empty opcode and the table now maps X to
the new value token 2.  CONST.do registers by plain dictionary assignment
with no redefinition check. -/
theorem C3_second_const_silently_overwrites :
    Macro_run .CONST [⟨.VARIABLE, .str "X", 0⟩, ⟨.BYTE_LITERAL, .int 2, 1⟩]
      ⟨[(.str "X", ⟨.BYTE_LITERAL, .int 1, 1⟩)], none⟩ =
    (.ok [], ⟨[(.str "X", ⟨.BYTE_LITERAL, .int 2, 1⟩)], none⟩) := rfl

/-- C3 amended: for every constant name already present in the constant
table, a second .CONST with that name (a Variable name token and a literal
value token) succeeds, returns an empty opcode, and overwrites the table
entry so that the name now maps to the new value token, whether or not the
new value equals the old one. -/
theorem C3_amended_const_redefinition_overwrites (nameTok valTok oldTok : Token)
    (st : AsmState)
    (hn : nameTok.type = TokenType.VARIABLE)
    (hv : valTok.type = TokenType.BYTE_LITERAL ∨ valTok.type = TokenType.WORD_LITERAL ∨
      valTok.type = TokenType.STRING_LITERAL)
    (hold : dictGet st.consts nameTok.value = some oldTok) :
    Macro_run .CONST [nameTok, valTok] st =
      (.ok [], { st with consts := dictSet st.consts nameTok.value valTok }) ∧
    dictGet (dictSet st.consts nameTok.value valTok) nameTok.value = some valTok := by
  refine ⟨?_, dictGet_dictSet_self _ _ _⟩
  rcases hv with h | h | h <;>
    simp [Macro_run, param_count, arity_ok, apply_substitution,
      substitute_variables_in_params, subst_at, validate_params, py_param_types_at,
      param_types, validate_parameter, macro_do, CONST_do, hn, h]

/-- C3 witness: instantiation of the amended theorem at a table holding
Y = 1 (byte) and a second .CONST Y 7 (word). -/
theorem C3_amended_witness :
    Macro_run .CONST [⟨.VARIABLE, .str "Y", 0⟩, ⟨.WORD_LITERAL, .int 7, 1⟩]
      ⟨[(.str "Y", ⟨.BYTE_LITERAL, .int 1, 1⟩)], none⟩ =
      (.ok [], ⟨dictSet [(.str "Y", ⟨.BYTE_LITERAL, .int 1, 1⟩)] (.str "Y")
        ⟨.WORD_LITERAL, .int 7, 1⟩, none⟩) ∧
    dictGet (dictSet [(.str "Y", ⟨.BYTE_LITERAL, .int 1, 1⟩)] (.str "Y")
      ⟨.WORD_LITERAL, .int 7, 1⟩) (.str "Y") = some ⟨.WORD_LITERAL, .int 7, 1⟩ :=
  C3_amended_const_redefinition_overwrites
    ⟨.VARIABLE, .str "Y", 0⟩ ⟨.WORD_LITERAL, .int 7, 1⟩ ⟨.BYTE_LITERAL, .int 1, 1⟩
    ⟨[(.str "Y", ⟨.BYTE_LITERAL, .int 1, 1⟩)], none⟩
    rfl (Or.inr (Or.inl rfl)) rfl

/-- C4: the claim says every successful .VAR invocation appends the local
entry to the scope and returns an empty byte sequence.  In the code the
one-parameter form succeeds with an empty opcode but appends nothing (the
whole registration block sits inside the two-parameter branch), and the
two-parameter form never succeeds: run indexes param_types[1] past the end
of the one-entry VAR.param_types list, raising IndexError.  Both facts are
shown on a fresh scope, which stays empty. -/
theorem C4_var_never_registers_local :
    (Macro_run .VAR [⟨.VARIABLE, .str "X", 0⟩] ⟨[], some ⟨[], []⟩⟩ =
      (.ok [], ⟨[], some ⟨[], []⟩⟩)) ∧
    (Macro_run .VAR [⟨.VARIABLE, .str "X", 0⟩, ⟨.BYTE_LITERAL, .int 1, 1⟩]
        ⟨[], some ⟨[], []⟩⟩ =
      (.error (.indexError pyIndexMsg), ⟨[], some ⟨[], []⟩⟩)) := ⟨rfl, rfl⟩

/-- C5: with no current scope, each of .PARAM, .PARAMB, .VAR and .VARB
fails and performs no side effect — the returned state is the input state —
but the failure is a Python TypeError from the broken Macro._raise_error
helper, not the ScopeError the claim names (the handlers do not even request
ScopeError there: they call _raise_macro_error, which asks for MacroError). -/
theorem C5_no_scope_raises_py_type_error_without_side_effect (t : Token) (st : AsmState)
    (hs : st.current_scope = none) (ht : t.type = TokenType.VARIABLE) :
    Macro_run .PARAM [t] st = (.error (.typeError pyArgCountMsg), st) ∧
    Macro_run .PARAMB [t] st = (.error (.typeError pyArgCountMsg), st) ∧
    Macro_run .VAR [t] st = (.error (.typeError pyArgCountMsg), st) ∧
    Macro_run .VARB [t] st = (.error (.typeError pyArgCountMsg), st) := by
  refine ⟨?_, ?_, ?_, ?_⟩ <;>
    simp [Macro_run, param_count, arity_ok, apply_substitution,
      substitute_variables_in_params, validate_params, py_param_types_at, param_types,
      validate_parameter, ht, macro_do, PARAM_do, VAR_do, hs, macro_length,
      raise_macro_error_fn, raise_error_fn]

/-- C5 witness: instantiation at .PARAM A with an empty assembler state and
no current scope. -/
theorem C5_no_scope_witness :
    Macro_run .PARAM [⟨.VARIABLE, .str "A", 0⟩] ⟨[], none⟩ =
      (.error (.typeError pyArgCountMsg), ⟨[], none⟩) ∧
    Macro_run .PARAMB [⟨.VARIABLE, .str "A", 0⟩] ⟨[], none⟩ =
      (.error (.typeError pyArgCountMsg), ⟨[], none⟩) ∧
    Macro_run .VAR [⟨.VARIABLE, .str "A", 0⟩] ⟨[], none⟩ =
      (.error (.typeError pyArgCountMsg), ⟨[], none⟩) ∧
    Macro_run .VARB [⟨.VARIABLE, .str "A", 0⟩] ⟨[], none⟩ =
      (.error (.typeError pyArgCountMsg), ⟨[], none⟩) :=
  C5_no_scope_raises_py_type_error_without_side_effect
    ⟨.VARIABLE, .str "A", 0⟩ ⟨[], none⟩ rfl rfl

/-- C6: the claim says a .DAT parameter count of at least 1 passes the
arity check because the declared maximum is unbounded.  In the code a .DAT
invocation with exactly one parameter — inside the declared (1, None)
range — still raises: the check demands both bounds be non-None, so the
None maximum itself counts as a violation, reported as a Python TypeError
through the broken raise helper. -/
theorem C6_dat_arity_check_rejects_in_range_count (p : Token) (st : AsmState) :
    Macro_run .DAT [p] st = (.error (.typeError pyArgCountMsg), st) := rfl

/-- C7: the claim says .DATN rejects a negative repeat count with a
TypeError and never silently returns an empty sequence.  In the code
DATN.do has no repeat-count validation at all: called with repeat count -1
and word value 5 it silently returns the empty opcode, because Python list
multiplication by a negative integer yields the empty list; and through
Macro.run the same invocation raises NameError in the substitution step, so
no TypeError about the count is ever raised. -/
theorem C7_datn_negative_repeat_silently_empty :
    DATN_do [⟨.WORD_LITERAL, .int (-1), 0⟩, ⟨.WORD_LITERAL, .int 5, 1⟩] = .ok [] ∧
    Macro_run .DATN [⟨.WORD_LITERAL, .int (-1), 0⟩, ⟨.WORD_LITERAL, .int 5, 1⟩]
        ⟨[], none⟩ =
      (.error (.nameError pyParamUndefMsg), ⟨[], none⟩) := ⟨rfl, rfl⟩

/-- C8: for every parameter list and state, running .DAT raises a Python
TypeError (the arity check treats the None maximum as a violation and the
report goes through the broken raise helper), and running .DATN raises
either that TypeError (count other than 2) or the NameError from the
undefined name param in the all-substitution branch (count exactly 2); in
both cases the state is unchanged and no byte sequence is returned. -/
theorem C8_dat_datn_always_raise (params : List Token) (st : AsmState) :
    Macro_run .DAT params st = (.error (.typeError pyArgCountMsg), st) ∧
    ∃ e, Macro_run .DATN params st = (.error e, st) ∧
      (e = PyExc.typeError pyArgCountMsg ∨ e = PyExc.nameError pyParamUndefMsg) := by
  constructor
  · rfl
  · by_cases h : params.length = 2
    · refine ⟨.nameError pyParamUndefMsg, ?_, Or.inr rfl⟩
      simp [Macro_run, param_count, arity_ok, h, apply_substitution,
        substitute_variables_in_params]
    · refine ⟨.typeError pyArgCountMsg, ?_, Or.inl rfl⟩
      have ha : arity_ok (param_count .DATN) params.length = false := by
        simp [param_count, arity_ok]
        omega
      simp [Macro_run, ha, raise_macro_error_fn, raise_error_fn]

/-- C9: whatever arguments they receive, the instance helpers
Macro._raise_error and Macro._raise_macro_error produce the Python
TypeError from the five-argument self-call against the three-parameter
signature, and the module-level _raise_error produces the NameError from
the undefined name message — none of them ever constructs a typed macro
error of the requested class. -/
theorem C9_error_helpers_never_build_typed_errors (p : Option Nat) (m : String)
    (c : ErrClass) (code : String) (ln : Nat) :
    (raise_error_fn p m c : Except PyExc (List Emitted)) =
      .error (.typeError pyArgCountMsg) ∧
    (raise_macro_error_fn p m : Except PyExc (List Emitted)) =
      .error (.typeError pyArgCountMsg) ∧
    (module_raise_error code ln p m c : Except PyExc (List Emitted)) =
      .error (.nameError pyMessageUndefMsg) := ⟨rfl, rfl, rfl⟩

/-- C10: macro dispatch is deterministic — two invocations of Macro.run
with the same directive, the same parameter tokens and the same assembler
state produce the same outcome (the same byte sequence or the same error)
and the same final assembler state. -/
theorem C10_run_deterministic (d : Directive) (params1 params2 : List Token)
    (st1 st2 : AsmState) (hp : params1 = params2) (hs : st1 = st2) :
    Macro_run d params1 st1 = Macro_run d params2 st2 := by rw [hp, hs]

/-- C10 witness: instantiation at a concrete .CONST invocation. -/
theorem C10_run_deterministic_witness :
    Macro_run .CONST [⟨.VARIABLE, .str "X", 0⟩, ⟨.BYTE_LITERAL, .int 1, 1⟩] ⟨[], none⟩ =
    Macro_run .CONST [⟨.VARIABLE, .str "X", 0⟩, ⟨.BYTE_LITERAL, .int 1, 1⟩] ⟨[], none⟩ :=
  C10_run_deterministic .CONST _ _ _ _ rfl rfl
